import Mathlib

/-!
# Verification of the ap2-sdk protocol type layer

Shallow embedding of `src/ap2-sdk/common/protocol/types.py` (pydantic
TypedDict schema definitions) as executable Lean decoders/encoders over a
JSON value type, together with proofs of the spec's claims about the schema.

Modelling conventions:
* JSON numeric literals are uninterpreted integer tokens (`Json.num`):
  no claim depends on numeric semantics (floats appear only as payload).
* UUID-typed fields are modelled as their canonical string form; pydantic
  re-serializes a decoded UUID to the canonical string, so on canonical
  strings decode/encode is the identity, which is what the round-trip law
  quantifies over.
* `dict[str, Any]` fields are raw JSON objects kept as association lists;
  `Any` fields are raw JSON values.
* Wire field names are the pydantic `to_camel` aliases of the Python field
  names (e.g. `context_id` ↔ `contextId`); names already in camelCase pass
  through unchanged, exactly as `pydantic.alias_generators.to_camel` does.
* TypedDict validation ignores unrecognized keys; the decoders below look
  up only the declared keys, which matches that behaviour.
-/

namespace AP2

/-- JSON values. Numbers are uninterpreted integer tokens (see module header). -/
inductive Json where
  | str : String → Json
  | num : Int → Json
  | bool : Bool → Json
  | null : Json
  | arr : List Json → Json
  | obj : List (String × Json) → Json

/-- Look up the first binding of key `k` in a JSON object's field list. -/
def getField (kvs : List (String × Json)) (k : String) : Option Json :=
  match kvs with
  | [] => none
  | (k', v) :: rest => if k' = k then some v else getField rest k

/-- An optional field's contribution to an encoded object: present iff `some`. -/
def addOpt (k : String) (o : Option Json) (rest : List (String × Json)) :
    List (String × Json) :=
  match o with
  | some v => (k, v) :: rest
  | none => rest

/- Primitive decoders, following pydantic's validation of the corresponding
annotations (`str`, `int`/`float`, `bool`, `dict[str, Any]`, `Any`). -/

def decStr : Json → Option String
  | .str s => some s
  | _ => none

def decNum : Json → Option Int
  | .num n => some n
  | _ => none

def decBool : Json → Option Bool
  | .bool b => some b
  | _ => none

def decDict : Json → Option (List (String × Json))
  | .obj kvs => some kvs
  | _ => none

def decAny : Json → Option Json := fun j => some j

/-- Decoder for a `Literal["s"]` annotation: only the exact string validates. -/
def decLit (s : String) : Json → Option Unit := fun j =>
  match j with
  | .str t => if t = s then some () else none
  | _ => none

def decListAux (dec : Json → Option α) : List Json → Option (List α)
  | [] => some []
  | v :: vs => do
      let a ← dec v
      let as ← decListAux dec vs
      pure (a :: as)

/-- Decoder for a `list[α]` annotation. -/
def decList (dec : Json → Option α) : Json → Option (List α)
  | .arr vs => decListAux dec vs
  | _ => none

/-- A `Required[α]` field: must be present and validate. -/
def reqField (dec : Json → Option α) (kvs : List (String × Json)) (k : String) :
    Option α :=
  (getField kvs k).bind dec

/-- A `NotRequired[α]` field: absent is fine, present must validate. -/
def decOptWith (dec : Json → Option α) : Option Json → Option (Option α)
  | none => some none
  | some v => (dec v).map some

def optField (dec : Json → Option α) (kvs : List (String × Json)) (k : String) :
    Option (Option α) :=
  decOptWith dec (getField kvs k)

def encStrList (l : List String) : Json := .arr (l.map Json.str)

def encNumList (l : List Int) : Json := .arr (l.map Json.num)

/-! ## Content parts (`TextPart`, `FileWithBytes`, `FileWithUri`, `FilePart`,
`DataPart`, `Part`), lines 93–164 of the source.

`FilePart` and `DataPart` are declared as TypedDict subclasses of `TextPart`
and therefore inherit its `metadata` and required `text` fields; `FileWithUri`
subclasses `FileWithBytes` and inherits its required `bytes` field. The
embedded records carry exactly the inherited field sets. -/

structure TextPart where
  metadata : Option (List (String × Json))
  text : String
  embeddings : Option (List Int)

/-- `FileWithBytes`: `bytes` required, `mimeType`/`name`/`embeddings` optional. -/
structure FileWithBytes where
  bytes : String
  mimeType : Option String
  name : Option String
  embeddings : Option (List Int)

/-- `FileWithUri` extends `FileWithBytes`: inherits the required `bytes`
field and adds a required `uri` field. -/
structure FileWithUri where
  bytes : String
  mimeType : Option String
  name : Option String
  embeddings : Option (List Int)
  uri : String

/-- The (undiscriminated) union `FileWithBytes | FileWithUri`. -/
inductive FileContent where
  | withBytes : FileWithBytes → FileContent
  | withUri : FileWithUri → FileContent

/-- `FilePart` extends `TextPart`: inherits `metadata` and the required
`text` field, overrides `kind`, adds the required `file` field. -/
structure FilePart where
  metadata : Option (List (String × Json))
  text : String
  file : FileContent
  embeddings : Option (List Int)

/-- `DataPart` extends `TextPart`: inherits `metadata` and the required
`text` field, overrides `kind`, adds the required `data` field. -/
structure DataPart where
  metadata : Option (List (String × Json))
  text : String
  data : List (String × Json)
  embeddings : Option (List Int)

/-- `Part = Union[TextPart, FilePart, DataPart]`, discriminated on `kind`. -/
inductive Part where
  | text : TextPart → Part
  | file : FilePart → Part
  | data : DataPart → Part

def decodeTextPartFields (kvs : List (String × Json)) : Option TextPart := do
  let _ ← reqField (decLit "text") kvs "kind"
  let metadata ← optField decDict kvs "metadata"
  let text ← reqField decStr kvs "text"
  let embeddings ← optField (decList decNum) kvs "embeddings"
  pure { metadata, text, embeddings }

def encodeTextPartFields (p : TextPart) : List (String × Json) :=
  ("kind", .str "text") ::
  addOpt "metadata" (p.metadata.map Json.obj)
  (("text", .str p.text) ::
  addOpt "embeddings" (p.embeddings.map encNumList) [])

def decodeFileWithBytes (kvs : List (String × Json)) : Option FileWithBytes := do
  let bytes ← reqField decStr kvs "bytes"
  let mimeType ← optField decStr kvs "mimeType"
  let name ← optField decStr kvs "name"
  let embeddings ← optField (decList decNum) kvs "embeddings"
  pure { bytes, mimeType, name, embeddings }

def encodeFileWithBytes (f : FileWithBytes) : List (String × Json) :=
  ("bytes", .str f.bytes) ::
  addOpt "mimeType" (f.mimeType.map Json.str)
  (addOpt "name" (f.name.map Json.str)
  (addOpt "embeddings" (f.embeddings.map encNumList) []))

def decodeFileWithUri (kvs : List (String × Json)) : Option FileWithUri := do
  let bytes ← reqField decStr kvs "bytes"
  let mimeType ← optField decStr kvs "mimeType"
  let name ← optField decStr kvs "name"
  let embeddings ← optField (decList decNum) kvs "embeddings"
  let uri ← reqField decStr kvs "uri"
  pure { bytes, mimeType, name, embeddings, uri }

def encodeFileWithUri (f : FileWithUri) : List (String × Json) :=
  ("bytes", .str f.bytes) ::
  addOpt "mimeType" (f.mimeType.map Json.str)
  (addOpt "name" (f.name.map Json.str)
  (addOpt "embeddings" (f.embeddings.map encNumList)
  [("uri", .str f.uri)]))

/-- Decoder for the union `FileWithBytes | FileWithUri`. Pydantic's smart
union picks the member validating the most fields, so a payload carrying a
`uri` key validates as `FileWithUri` (which also demands `bytes`), and one
without `uri` as `FileWithBytes`. -/
def decodeFileContent (j : Json) : Option FileContent :=
  match j with
  | .obj kvs =>
    match getField kvs "uri" with
    | some _ => (decodeFileWithUri kvs).map .withUri
    | none => (decodeFileWithBytes kvs).map .withBytes
  | _ => none

def encodeFileContent : FileContent → Json
  | .withBytes f => .obj (encodeFileWithBytes f)
  | .withUri f => .obj (encodeFileWithUri f)

def decodeFilePartFields (kvs : List (String × Json)) : Option FilePart := do
  let _ ← reqField (decLit "file") kvs "kind"
  let metadata ← optField decDict kvs "metadata"
  let text ← reqField decStr kvs "text"
  let file ← reqField decodeFileContent kvs "file"
  let embeddings ← optField (decList decNum) kvs "embeddings"
  pure { metadata, text, file, embeddings }

def encodeFilePartFields (p : FilePart) : List (String × Json) :=
  ("kind", .str "file") ::
  addOpt "metadata" (p.metadata.map Json.obj)
  (("text", .str p.text) ::
  ("file", encodeFileContent p.file) ::
  addOpt "embeddings" (p.embeddings.map encNumList) [])

def decodeDataPartFields (kvs : List (String × Json)) : Option DataPart := do
  let _ ← reqField (decLit "data") kvs "kind"
  let metadata ← optField decDict kvs "metadata"
  let text ← reqField decStr kvs "text"
  let data ← reqField decDict kvs "data"
  let embeddings ← optField (decList decNum) kvs "embeddings"
  pure { metadata, text, data, embeddings }

def encodeDataPartFields (p : DataPart) : List (String × Json) :=
  ("kind", .str "data") ::
  addOpt "metadata" (p.metadata.map Json.obj)
  (("text", .str p.text) ::
  ("data", .obj p.data) ::
  addOpt "embeddings" (p.embeddings.map encNumList) [])

/-- `Part` decoding: the `kind` discriminant is read first and selects the
variant decoder; a missing or unregistered discriminant fails. -/
def decodePart (j : Json) : Option Part :=
  match j with
  | .obj kvs =>
    match getField kvs "kind" with
    | some (.str "text") => (decodeTextPartFields kvs).map .text
    | some (.str "file") => (decodeFilePartFields kvs).map .file
    | some (.str "data") => (decodeDataPartFields kvs).map .data
    | _ => none
  | _ => none

def encodePart : Part → Json
  | .text p => .obj (encodeTextPartFields p)
  | .file p => .obj (encodeFilePartFields p)
  | .data p => .obj (encodeDataPartFields p)

def encPartList (l : List Part) : Json := .arr (l.map encodePart)

/-! ## Task state and lifecycle enumerations (source lines 29–46, 253, 712). -/

/-- The 16 values of the closed `TaskState` enumeration. -/
inductive TaskState where
  | submitted
  | working
  | inputRequired
  | completed
  | canceled
  | failed
  | rejected
  | authRequired
  | unknown
  | trustVerificationRequired
  | pending
  | suspended
  | resumed
  | negotiationBidSubmitted
  | negotiationBidLost
  | negotiationBidWon
deriving DecidableEq, Repr

def encTaskState : TaskState → String
  | .submitted => "submitted"
  | .working => "working"
  | .inputRequired => "input-required"
  | .completed => "completed"
  | .canceled => "canceled"
  | .failed => "failed"
  | .rejected => "rejected"
  | .authRequired => "auth-required"
  | .unknown => "unknown"
  | .trustVerificationRequired => "trust-verification-required"
  | .pending => "pending"
  | .suspended => "suspended"
  | .resumed => "resumed"
  | .negotiationBidSubmitted => "negotiation-bid-submitted"
  | .negotiationBidLost => "negotiation-bid-lost"
  | .negotiationBidWon => "negotiation-bid-won"

/-- The 16 literal strings of `TaskState`, in source order. -/
def taskStateStrings : List String :=
  ["submitted", "working", "input-required", "completed", "canceled", "failed",
   "rejected", "auth-required", "unknown", "trust-verification-required",
   "pending", "suspended", "resumed", "negotiation-bid-submitted",
   "negotiation-bid-lost", "negotiation-bid-won"]

/-- A `Literal[...]` annotation validates exactly the listed strings;
anything else is rejected (never coerced). -/
def decTaskState (s : String) : Option TaskState :=
  if s = "submitted" then some .submitted
  else if s = "working" then some .working
  else if s = "input-required" then some .inputRequired
  else if s = "completed" then some .completed
  else if s = "canceled" then some .canceled
  else if s = "failed" then some .failed
  else if s = "rejected" then some .rejected
  else if s = "auth-required" then some .authRequired
  else if s = "unknown" then some .unknown
  else if s = "trust-verification-required" then some .trustVerificationRequired
  else if s = "pending" then some .pending
  else if s = "suspended" then some .suspended
  else if s = "resumed" then some .resumed
  else if s = "negotiation-bid-submitted" then some .negotiationBidSubmitted
  else if s = "negotiation-bid-lost" then some .negotiationBidLost
  else if s = "negotiation-bid-won" then some .negotiationBidWon
  else none

def decTaskStateJson (j : Json) : Option TaskState :=
  (decStr j).bind decTaskState

/-- `role: Literal['user', 'agent', 'system']` on `Message` (line 253). -/
inductive MsgRole where
  | user
  | agent
  | system
deriving DecidableEq, Repr

def encMsgRole : MsgRole → String
  | .user => "user"
  | .agent => "agent"
  | .system => "system"

def decMsgRole (j : Json) : Option MsgRole :=
  match j with
  | .str "user" => some .user
  | .str "agent" => some .agent
  | .str "system" => some .system
  | _ => none

/-- `status: NotRequired[Literal["active", "paused", "completed", "archived"]]`
on `Context` (line 712). -/
inductive CtxStatus where
  | active
  | paused
  | completed
  | archived
deriving DecidableEq, Repr

def encCtxStatus : CtxStatus → String
  | .active => "active"
  | .paused => "paused"
  | .completed => "completed"
  | .archived => "archived"

def decCtxStatus (j : Json) : Option CtxStatus :=
  match j with
  | .str "active" => some .active
  | .str "paused" => some .paused
  | .str "completed" => some .completed
  | .str "archived" => some .archived
  | _ => none

/-! ## `Artifact` (source lines 170–204). -/

structure Artifact where
  artifactId : String
  name : Option String
  description : Option String
  metadata : Option (List (String × Json))
  parts : Option (List Part)
  append : Option Bool
  lastChunk : Option Bool
  extensions : Option (List String)

def decodeArtifact (j : Json) : Option Artifact :=
  match j with
  | .obj kvs => do
    let artifactId ← reqField decStr kvs "artifactId"
    let name ← optField decStr kvs "name"
    let description ← optField decStr kvs "description"
    let metadata ← optField decDict kvs "metadata"
    let parts ← optField (decList decodePart) kvs "parts"
    let append ← optField decBool kvs "append"
    let lastChunk ← optField decBool kvs "lastChunk"
    let extensions ← optField (decList decStr) kvs "extensions"
    pure { artifactId, name, description, metadata, parts, append, lastChunk,
           extensions }
  | _ => none

def encodeArtifact (a : Artifact) : Json :=
  .obj (("artifactId", .str a.artifactId) ::
    addOpt "name" (a.name.map Json.str)
    (addOpt "description" (a.description.map Json.str)
    (addOpt "metadata" (a.metadata.map Json.obj)
    (addOpt "parts" (a.parts.map encPartList)
    (addOpt "append" (a.append.map Json.bool)
    (addOpt "lastChunk" (a.lastChunk.map Json.bool)
    (addOpt "extensions" (a.extensions.map encStrList) [])))))))

def encArtifactList (l : List Artifact) : Json := .arr (l.map encodeArtifact)

/-! ## `Message` (source lines 208–257). -/

structure Message where
  messageId : String
  contextId : String
  taskId : String
  referenceTaskIds : Option (List String)
  metadata : Option (List (String × Json))
  parts : List Part
  role : MsgRole
  extensions : Option (List String)

def decodeMessage (j : Json) : Option Message :=
  match j with
  | .obj kvs => do
    let messageId ← reqField decStr kvs "messageId"
    let contextId ← reqField decStr kvs "contextId"
    let taskId ← reqField decStr kvs "taskId"
    let referenceTaskIds ← optField (decList decStr) kvs "referenceTaskIds"
    let _ ← reqField (decLit "message") kvs "kind"
    let metadata ← optField decDict kvs "metadata"
    let parts ← reqField (decList decodePart) kvs "parts"
    let role ← reqField decMsgRole kvs "role"
    let extensions ← optField (decList decStr) kvs "extensions"
    pure { messageId, contextId, taskId, referenceTaskIds, metadata, parts,
           role, extensions }
  | _ => none

def encodeMessage (m : Message) : Json :=
  .obj (("messageId", .str m.messageId) ::
    ("contextId", .str m.contextId) ::
    ("taskId", .str m.taskId) ::
    addOpt "referenceTaskIds" (m.referenceTaskIds.map encStrList)
    (("kind", .str "message") ::
    addOpt "metadata" (m.metadata.map Json.obj)
    (("parts", encPartList m.parts) ::
    ("role", .str (encMsgRole m.role)) ::
    addOpt "extensions" (m.extensions.map encStrList) [])))

def encMessageList (l : List Message) : Json := .arr (l.map encodeMessage)

/-! ## `TaskStatus` and `Task` (source lines 401–466). -/

structure TaskStatus where
  message : Option Message
  state : TaskState
  timestamp : String

def decodeTaskStatus (j : Json) : Option TaskStatus :=
  match j with
  | .obj kvs => do
    let message ← optField decodeMessage kvs "message"
    let state ← reqField decTaskStateJson kvs "state"
    let timestamp ← reqField decStr kvs "timestamp"
    pure { message, state, timestamp }
  | _ => none

def encodeTaskStatus (s : TaskStatus) : Json :=
  .obj (addOpt "message" (s.message.map encodeMessage)
    (("state", .str (encTaskState s.state)) ::
    ("timestamp", .str s.timestamp) :: []))

structure Task where
  id : String
  contextId : String
  status : TaskStatus
  artifacts : Option (List Artifact)
  history : Option (List Message)
  metadata : Option (List (String × Json))

def decodeTask (j : Json) : Option Task :=
  match j with
  | .obj kvs => do
    let id ← reqField decStr kvs "id"
    let contextId ← reqField decStr kvs "contextId"
    let _ ← reqField (decLit "task") kvs "kind"
    let status ← reqField decodeTaskStatus kvs "status"
    let artifacts ← optField (decList decodeArtifact) kvs "artifacts"
    let history ← optField (decList decodeMessage) kvs "history"
    let metadata ← optField decDict kvs "metadata"
    pure { id, contextId, status, artifacts, history, metadata }
  | _ => none

def encodeTask (t : Task) : Json :=
  .obj (("id", .str t.id) ::
    ("contextId", .str t.contextId) ::
    ("kind", .str "task") ::
    ("status", encodeTaskStatus t.status) ::
    addOpt "artifacts" (t.artifacts.map encArtifactList)
    (addOpt "history" (t.history.map encMessageList)
    (addOpt "metadata" (t.metadata.map Json.obj) [])))

/-! ## `Context` (source lines 652–729). -/

structure Context where
  contextId : String
  tasks : Option (List String)
  name : Option String
  description : Option String
  role : String
  createdAt : String
  updatedAt : String
  status : Option CtxStatus
  tags : Option (List String)
  metadata : Option (List (String × Json))
  parentContextId : Option String
  referenceContextIds : Option (List String)
  extensions : Option (List (String × Json))

def decodeContext (j : Json) : Option Context :=
  match j with
  | .obj kvs => do
    let contextId ← reqField decStr kvs "contextId"
    let _ ← reqField (decLit "context") kvs "kind"
    let tasks ← optField (decList decStr) kvs "tasks"
    let name ← optField decStr kvs "name"
    let description ← optField decStr kvs "description"
    let role ← reqField decStr kvs "role"
    let createdAt ← reqField decStr kvs "createdAt"
    let updatedAt ← reqField decStr kvs "updatedAt"
    let status ← optField decCtxStatus kvs "status"
    let tags ← optField (decList decStr) kvs "tags"
    let metadata ← optField decDict kvs "metadata"
    let parentContextId ← optField decStr kvs "parentContextId"
    let referenceContextIds ← optField (decList decStr) kvs "referenceContextIds"
    let extensions ← optField decDict kvs "extensions"
    pure { contextId, tasks, name, description, role, createdAt, updatedAt,
           status, tags, metadata, parentContextId, referenceContextIds,
           extensions }
  | _ => none

def encodeContext (c : Context) : Json :=
  .obj (("contextId", .str c.contextId) ::
    ("kind", .str "context") ::
    addOpt "tasks" (c.tasks.map encStrList)
    (addOpt "name" (c.name.map Json.str)
    (addOpt "description" (c.description.map Json.str)
    (("role", .str c.role) ::
    ("createdAt", .str c.createdAt) ::
    ("updatedAt", .str c.updatedAt) ::
    addOpt "status" (c.status.map (fun s => Json.str (encCtxStatus s)))
    (addOpt "tags" (c.tags.map encStrList)
    (addOpt "metadata" (c.metadata.map Json.obj)
    (addOpt "parentContextId" (c.parentContextId.map Json.str)
    (addOpt "referenceContextIds" (c.referenceContextIds.map encStrList)
    (addOpt "extensions" (c.extensions.map Json.obj) [])))))))))

/-! ## Payment models and the mandate chain (source lines 815–1162). -/

structure ContactAddress where
  city : Option String
  country : Option String
  dependentLocality : Option String
  organization : Option String
  phoneNumber : Option String
  postalCode : Option String
  recipient : Option String
  region : Option String
  sortingCode : Option String
  addressLine : Option (List String)

def decodeContactAddress (j : Json) : Option ContactAddress :=
  match j with
  | .obj kvs => do
    let city ← optField decStr kvs "city"
    let country ← optField decStr kvs "country"
    let dependentLocality ← optField decStr kvs "dependentLocality"
    let organization ← optField decStr kvs "organization"
    let phoneNumber ← optField decStr kvs "phoneNumber"
    let postalCode ← optField decStr kvs "postalCode"
    let recipient ← optField decStr kvs "recipient"
    let region ← optField decStr kvs "region"
    let sortingCode ← optField decStr kvs "sortingCode"
    let addressLine ← optField (decList decStr) kvs "addressLine"
    pure { city, country, dependentLocality, organization, phoneNumber,
           postalCode, recipient, region, sortingCode, addressLine }
  | _ => none

def encodeContactAddress (a : ContactAddress) : Json :=
  .obj (addOpt "city" (a.city.map Json.str)
    (addOpt "country" (a.country.map Json.str)
    (addOpt "dependentLocality" (a.dependentLocality.map Json.str)
    (addOpt "organization" (a.organization.map Json.str)
    (addOpt "phoneNumber" (a.phoneNumber.map Json.str)
    (addOpt "postalCode" (a.postalCode.map Json.str)
    (addOpt "recipient" (a.recipient.map Json.str)
    (addOpt "region" (a.region.map Json.str)
    (addOpt "sortingCode" (a.sortingCode.map Json.str)
    (addOpt "addressLine" (a.addressLine.map encStrList) []))))))))))

/-- `PaymentCurrencyAmount`: the `value: float` field is carried as an
uninterpreted numeric token (see module header). -/
structure PaymentCurrencyAmount where
  currency : String
  value : Int

def decodePaymentCurrencyAmount (j : Json) : Option PaymentCurrencyAmount :=
  match j with
  | .obj kvs => do
    let currency ← reqField decStr kvs "currency"
    let value ← reqField decNum kvs "value"
    pure { currency, value }
  | _ => none

def encodePaymentCurrencyAmount (a : PaymentCurrencyAmount) : Json :=
  .obj (("currency", .str a.currency) :: ("value", .num a.value) :: [])

structure PaymentItem where
  label : String
  amount : PaymentCurrencyAmount
  pending : Option Bool
  refundPeriod : Option Int

def decodePaymentItem (j : Json) : Option PaymentItem :=
  match j with
  | .obj kvs => do
    let label ← reqField decStr kvs "label"
    let amount ← reqField decodePaymentCurrencyAmount kvs "amount"
    let pending ← optField decBool kvs "pending"
    let refundPeriod ← optField decNum kvs "refundPeriod"
    pure { label, amount, pending, refundPeriod }
  | _ => none

def encodePaymentItem (i : PaymentItem) : Json :=
  .obj (("label", .str i.label) ::
    ("amount", encodePaymentCurrencyAmount i.amount) ::
    addOpt "pending" (i.pending.map Json.bool)
    (addOpt "refundPeriod" (i.refundPeriod.map Json.num) []))

def encPaymentItemList (l : List PaymentItem) : Json := .arr (l.map encodePaymentItem)

structure PaymentShippingOption where
  id : String
  label : String
  amount : PaymentCurrencyAmount
  selected : Option Bool

def decodePaymentShippingOption (j : Json) : Option PaymentShippingOption :=
  match j with
  | .obj kvs => do
    let id ← reqField decStr kvs "id"
    let label ← reqField decStr kvs "label"
    let amount ← reqField decodePaymentCurrencyAmount kvs "amount"
    let selected ← optField decBool kvs "selected"
    pure { id, label, amount, selected }
  | _ => none

def encodePaymentShippingOption (s : PaymentShippingOption) : Json :=
  .obj (("id", .str s.id) ::
    ("label", .str s.label) ::
    ("amount", encodePaymentCurrencyAmount s.amount) ::
    addOpt "selected" (s.selected.map Json.bool) [])

def encPaymentShippingOptionList (l : List PaymentShippingOption) : Json :=
  .arr (l.map encodePaymentShippingOption)

structure PaymentOptions where
  requestPayerName : Option Bool
  requestPayerEmail : Option Bool
  requestPayerPhone : Option Bool
  requestShipping : Option Bool
  shippingType : Option String

def decodePaymentOptions (j : Json) : Option PaymentOptions :=
  match j with
  | .obj kvs => do
    let requestPayerName ← optField decBool kvs "requestPayerName"
    let requestPayerEmail ← optField decBool kvs "requestPayerEmail"
    let requestPayerPhone ← optField decBool kvs "requestPayerPhone"
    let requestShipping ← optField decBool kvs "requestShipping"
    let shippingType ← optField decStr kvs "shippingType"
    pure { requestPayerName, requestPayerEmail, requestPayerPhone,
           requestShipping, shippingType }
  | _ => none

def encodePaymentOptions (o : PaymentOptions) : Json :=
  .obj (addOpt "requestPayerName" (o.requestPayerName.map Json.bool)
    (addOpt "requestPayerEmail" (o.requestPayerEmail.map Json.bool)
    (addOpt "requestPayerPhone" (o.requestPayerPhone.map Json.bool)
    (addOpt "requestShipping" (o.requestShipping.map Json.bool)
    (addOpt "shippingType" (o.shippingType.map Json.str) [])))))

structure PaymentMethodData where
  supportedMethods : String
  data : Option (List (String × Json))

def decodePaymentMethodData (j : Json) : Option PaymentMethodData :=
  match j with
  | .obj kvs => do
    let supportedMethods ← reqField decStr kvs "supportedMethods"
    let data ← optField decDict kvs "data"
    pure { supportedMethods, data }
  | _ => none

def encodePaymentMethodData (d : PaymentMethodData) : Json :=
  .obj (("supportedMethods", .str d.supportedMethods) ::
    addOpt "data" (d.data.map Json.obj) [])

def encPaymentMethodDataList (l : List PaymentMethodData) : Json :=
  .arr (l.map encodePaymentMethodData)

/-- `PaymentDetailsModifier`: the `data: NotRequired[Any]` field is a raw
JSON value. -/
structure PaymentDetailsModifier where
  supportedMethods : String
  total : Option PaymentItem
  additionalDisplayItems : Option (List PaymentItem)
  data : Option Json

def decodePaymentDetailsModifier (j : Json) : Option PaymentDetailsModifier :=
  match j with
  | .obj kvs => do
    let supportedMethods ← reqField decStr kvs "supportedMethods"
    let total ← optField decodePaymentItem kvs "total"
    let additionalDisplayItems ← optField (decList decodePaymentItem) kvs
      "additionalDisplayItems"
    let data ← optField decAny kvs "data"
    pure { supportedMethods, total, additionalDisplayItems, data }
  | _ => none

def encodePaymentDetailsModifier (m : PaymentDetailsModifier) : Json :=
  .obj (("supportedMethods", .str m.supportedMethods) ::
    addOpt "total" (m.total.map encodePaymentItem)
    (addOpt "additionalDisplayItems" (m.additionalDisplayItems.map encPaymentItemList)
    (addOpt "data" m.data [])))

def encPaymentDetailsModifierList (l : List PaymentDetailsModifier) : Json :=
  .arr (l.map encodePaymentDetailsModifier)

structure PaymentDetailsInit where
  id : String
  displayItems : List PaymentItem
  shippingOptions : Option (List PaymentShippingOption)
  modifiers : Option (List PaymentDetailsModifier)
  total : PaymentItem
  description : Option String

def decodePaymentDetailsInit (j : Json) : Option PaymentDetailsInit :=
  match j with
  | .obj kvs => do
    let id ← reqField decStr kvs "id"
    let displayItems ← reqField (decList decodePaymentItem) kvs "displayItems"
    let shippingOptions ← optField (decList decodePaymentShippingOption) kvs
      "shippingOptions"
    let modifiers ← optField (decList decodePaymentDetailsModifier) kvs "modifiers"
    let total ← reqField decodePaymentItem kvs "total"
    let description ← optField decStr kvs "description"
    pure { id, displayItems, shippingOptions, modifiers, total, description }
  | _ => none

def encodePaymentDetailsInit (d : PaymentDetailsInit) : Json :=
  .obj (("id", .str d.id) ::
    ("displayItems", encPaymentItemList d.displayItems) ::
    addOpt "shippingOptions" (d.shippingOptions.map encPaymentShippingOptionList)
    (addOpt "modifiers" (d.modifiers.map encPaymentDetailsModifierList)
    (("total", encodePaymentItem d.total) ::
    addOpt "description" (d.description.map Json.str) [])))

structure PaymentRequest where
  methodData : List PaymentMethodData
  details : PaymentDetailsInit
  options : Option PaymentOptions
  shippingAddress : Option ContactAddress

def decodePaymentRequest (j : Json) : Option PaymentRequest :=
  match j with
  | .obj kvs => do
    let methodData ← reqField (decList decodePaymentMethodData) kvs "methodData"
    let details ← reqField decodePaymentDetailsInit kvs "details"
    let options ← optField decodePaymentOptions kvs "options"
    let shippingAddress ← optField decodeContactAddress kvs "shippingAddress"
    pure { methodData, details, options, shippingAddress }
  | _ => none

def encodePaymentRequest (r : PaymentRequest) : Json :=
  .obj (("methodData", encPaymentMethodDataList r.methodData) ::
    ("details", encodePaymentDetailsInit r.details) ::
    addOpt "options" (r.options.map encodePaymentOptions)
    (addOpt "shippingAddress" (r.shippingAddress.map encodeContactAddress) []))

structure PaymentResponse where
  requestId : String
  methodName : String
  details : Option (List (String × Json))
  shippingAddress : Option ContactAddress
  shippingOption : Option PaymentShippingOption
  payerName : Option String
  payerEmail : Option String
  payerPhone : Option String

def decodePaymentResponse (j : Json) : Option PaymentResponse :=
  match j with
  | .obj kvs => do
    let requestId ← reqField decStr kvs "requestId"
    let methodName ← reqField decStr kvs "methodName"
    let details ← optField decDict kvs "details"
    let shippingAddress ← optField decodeContactAddress kvs "shippingAddress"
    let shippingOption ← optField decodePaymentShippingOption kvs "shippingOption"
    let payerName ← optField decStr kvs "payerName"
    let payerEmail ← optField decStr kvs "payerEmail"
    let payerPhone ← optField decStr kvs "payerPhone"
    pure { requestId, methodName, details, shippingAddress, shippingOption,
           payerName, payerEmail, payerPhone }
  | _ => none

def encodePaymentResponse (r : PaymentResponse) : Json :=
  .obj (("requestId", .str r.requestId) ::
    ("methodName", .str r.methodName) ::
    addOpt "details" (r.details.map Json.obj)
    (addOpt "shippingAddress" (r.shippingAddress.map encodeContactAddress)
    (addOpt "shippingOption" (r.shippingOption.map encodePaymentShippingOption)
    (addOpt "payerName" (r.payerName.map Json.str)
    (addOpt "payerEmail" (r.payerEmail.map Json.str)
    (addOpt "payerPhone" (r.payerPhone.map Json.str) []))))))

/-! ### The mandate chain proper. -/

structure IntentMandate where
  userCartConfirmationRequired : Bool
  naturalLanguageDescription : String
  merchants : Option (List String)
  skus : Option (List String)
  requiresRefundability : Option Bool
  intentExpiry : String

def decodeIntentMandate (j : Json) : Option IntentMandate :=
  match j with
  | .obj kvs => do
    let userCartConfirmationRequired ← reqField decBool kvs
      "userCartConfirmationRequired"
    let naturalLanguageDescription ← reqField decStr kvs
      "naturalLanguageDescription"
    let merchants ← optField (decList decStr) kvs "merchants"
    let skus ← optField (decList decStr) kvs "skus"
    let requiresRefundability ← optField decBool kvs "requiresRefundability"
    let intentExpiry ← reqField decStr kvs "intentExpiry"
    pure { userCartConfirmationRequired, naturalLanguageDescription, merchants,
           skus, requiresRefundability, intentExpiry }
  | _ => none

def encodeIntentMandate (m : IntentMandate) : Json :=
  .obj (("userCartConfirmationRequired", .bool m.userCartConfirmationRequired) ::
    ("naturalLanguageDescription", .str m.naturalLanguageDescription) ::
    addOpt "merchants" (m.merchants.map encStrList)
    (addOpt "skus" (m.skus.map encStrList)
    (addOpt "requiresRefundability" (m.requiresRefundability.map Json.bool)
    (("intentExpiry", .str m.intentExpiry) :: []))))

structure CartContents where
  id : String
  userCartConfirmationRequired : Bool
  paymentRequest : PaymentRequest
  cartExpiry : String
  merchantName : String

def decodeCartContents (j : Json) : Option CartContents :=
  match j with
  | .obj kvs => do
    let id ← reqField decStr kvs "id"
    let userCartConfirmationRequired ← reqField decBool kvs
      "userCartConfirmationRequired"
    let paymentRequest ← reqField decodePaymentRequest kvs "paymentRequest"
    let cartExpiry ← reqField decStr kvs "cartExpiry"
    let merchantName ← reqField decStr kvs "merchantName"
    pure { id, userCartConfirmationRequired, paymentRequest, cartExpiry,
           merchantName }
  | _ => none

def encodeCartContents (c : CartContents) : Json :=
  .obj (("id", .str c.id) ::
    ("userCartConfirmationRequired", .bool c.userCartConfirmationRequired) ::
    ("paymentRequest", encodePaymentRequest c.paymentRequest) ::
    ("cartExpiry", .str c.cartExpiry) ::
    ("merchantName", .str c.merchantName) :: [])

structure CartMandate where
  contents : CartContents
  merchantAuthorization : Option String

def decodeCartMandate (j : Json) : Option CartMandate :=
  match j with
  | .obj kvs => do
    let contents ← reqField decodeCartContents kvs "contents"
    let merchantAuthorization ← optField decStr kvs "merchantAuthorization"
    pure { contents, merchantAuthorization }
  | _ => none

def encodeCartMandate (m : CartMandate) : Json :=
  .obj (("contents", encodeCartContents m.contents) ::
    addOpt "merchantAuthorization" (m.merchantAuthorization.map Json.str) [])

structure PaymentMandateContents where
  paymentMandateId : String
  paymentDetailsId : String
  paymentDetailsTotal : PaymentItem
  paymentResponse : PaymentResponse
  merchantAgent : String
  timestamp : String

def decodePaymentMandateContents (j : Json) : Option PaymentMandateContents :=
  match j with
  | .obj kvs => do
    let paymentMandateId ← reqField decStr kvs "paymentMandateId"
    let paymentDetailsId ← reqField decStr kvs "paymentDetailsId"
    let paymentDetailsTotal ← reqField decodePaymentItem kvs "paymentDetailsTotal"
    let paymentResponse ← reqField decodePaymentResponse kvs "paymentResponse"
    let merchantAgent ← reqField decStr kvs "merchantAgent"
    let timestamp ← reqField decStr kvs "timestamp"
    pure { paymentMandateId, paymentDetailsId, paymentDetailsTotal,
           paymentResponse, merchantAgent, timestamp }
  | _ => none

def encodePaymentMandateContents (c : PaymentMandateContents) : Json :=
  .obj (("paymentMandateId", .str c.paymentMandateId) ::
    ("paymentDetailsId", .str c.paymentDetailsId) ::
    ("paymentDetailsTotal", encodePaymentItem c.paymentDetailsTotal) ::
    ("paymentResponse", encodePaymentResponse c.paymentResponse) ::
    ("merchantAgent", .str c.merchantAgent) ::
    ("timestamp", .str c.timestamp) :: [])

structure PaymentMandate where
  paymentMandateContents : PaymentMandateContents
  userAuthorization : Option String

def decodePaymentMandate (j : Json) : Option PaymentMandate :=
  match j with
  | .obj kvs => do
    let paymentMandateContents ← reqField decodePaymentMandateContents kvs
      "paymentMandateContents"
    let userAuthorization ← optField decStr kvs "userAuthorization"
    pure { paymentMandateContents, userAuthorization }
  | _ => none

def encodePaymentMandate (m : PaymentMandate) : Json :=
  .obj (("paymentMandateContents",
      encodePaymentMandateContents m.paymentMandateContents) ::
    addOpt "userAuthorization" (m.userAuthorization.map Json.str) [])

/-! ## JSON-RPC error taxonomy (source lines 1265–1357).

Each error alias instantiates `JSONRPCError[CodeT, MessageT]` at a
`Literal` code and a `Literal` canonical message, so validation accepts
exactly that code and exactly that message; `data` is `NotRequired[Any]`. -/

structure RpcError where
  code : Int
  message : String
  data : Option Json

def parseErrorMsg : String :=
  "Failed to parse JSON payload. Please ensure the request body contains valid JSON syntax. See: https://www.jsonrpc.org/specification#error_object"

def invalidRequestMsg : String :=
  "Request payload validation failed. The request structure does not conform to JSON-RPC 2.0 specification. See: https://www.jsonrpc.org/specification#request_object"

def methodNotFoundMsg : String :=
  "The requested method is not available on this server. Please check the method name and try again. See API docs: /docs"

def invalidParamsMsg : String :=
  "Invalid or missing parameters for the requested method. Please verify parameter types and required fields. See API docs: /docs"

def internalErrorMsg : String :=
  "An internal server error occurred while processing the request. Please try again or contact support if the issue persists. See: /health"

def taskNotFoundMsg : String :=
  "The specified task ID was not found. The task may have been completed, canceled, or expired. Check task status: GET /tasks/\x7bid\x7d"

def taskNotCancelableMsg : String :=
  "This task cannot be canceled in its current state. Tasks can only be canceled while pending or running. See task lifecycle: /docs/tasks"

def contextNotFoundMsg : String :=
  "The specified context ID was not found. The context may have been deleted or expired. Check context status: GET /contexts/\x7bid\x7d"

def contextNotCancelableMsg : String :=
  "This context cannot be canceled in its current state. Contexts can only be canceled while pending or running. See context lifecycle: /docs/contexts"

def pushNotificationNotSupportedMsg : String :=
  "Push notifications are not supported by this server configuration. Please use polling to check task status. See: GET /tasks/\x7bid\x7d"

def unsupportedOperationMsg : String :=
  "The requested operation is not supported by this agent or server configuration. See supported operations: /docs/capabilities"

def contentTypeNotSupportedMsg : String :=
  "The content type in the request is not supported. Please use application/json or check supported content types. See: /docs/content-types"

def invalidAgentResponseMsg : String :=
  "The agent returned an invalid or malformed response. This may indicate an agent configuration issue. See troubleshooting: /docs/troubleshooting"

/-- The error taxonomy: every `(code, canonical message)` pair declared in the
source (lines 1280–1357), in source order: the five standard JSON-RPC codes
followed by the domain codes −32001 … −32008. -/
def errorTable : List (Int × String) :=
  [(-32700, parseErrorMsg),
   (-32600, invalidRequestMsg),
   (-32601, methodNotFoundMsg),
   (-32602, invalidParamsMsg),
   (-32603, internalErrorMsg),
   (-32001, taskNotFoundMsg),
   (-32002, taskNotCancelableMsg),
   (-32003, contextNotFoundMsg),
   (-32004, contextNotCancelableMsg),
   (-32005, pushNotificationNotSupportedMsg),
   (-32006, unsupportedOperationMsg),
   (-32007, contentTypeNotSupportedMsg),
   (-32008, invalidAgentResponseMsg)]

/-- Decoder for an `int` `Literal` annotation. -/
def decNumLit (c : Int) : Json → Option Unit := fun j =>
  match j with
  | .num n => if n = c then some () else none
  | _ => none

/-- Decoder for `JSONRPCError[Literal[c], Literal[msg]]`: the `code` and
`message` fields must equal the fixed literals; `data` is free-form. -/
def decodeFixedError (c : Int) (msg : String) (j : Json) : Option RpcError :=
  match j with
  | .obj kvs => do
    let _ ← reqField (decNumLit c) kvs "code"
    let _ ← reqField (decLit msg) kvs "message"
    let data ← optField decAny kvs "data"
    pure { code := c, message := msg, data }
  | _ => none

/-! ## JSON-RPC envelope (source lines 1251–1277).

`JSONRPCResponse` declares `result: NotRequired[ResultT]` and
`error: NotRequired[ErrorT]`: both fields are optional and independent. -/

structure JSONRPCResponse (ρ ε : Type) where
  id : String
  result : Option ρ
  error : Option ε

def decodeJSONRPCResponse (decR : Json → Option ρ) (decE : Json → Option ε)
    (j : Json) : Option (JSONRPCResponse ρ ε) :=
  match j with
  | .obj kvs => do
    let _ ← reqField (decLit "2.0") kvs "jsonrpc"
    let id ← reqField decStr kvs "id"
    let result ← optField decR kvs "result"
    let error ← optField decE kvs "error"
    pure { id, result, error }
  | _ => none

/-- `GetTaskResponse = JSONRPCResponse[Task, TaskNotFoundError]` (line 1371). -/
def decodeGetTaskResponse (j : Json) : Option (JSONRPCResponse Task RpcError) :=
  decodeJSONRPCResponse decodeTask (decodeFixedError (-32001) taskNotFoundMsg) j

/-! ## Security schemes (source lines 266–347), needed by the
push-notification request parameters. -/

structure HTTPAuthSecurityScheme where
  scheme : String
  bearerFormat : Option String
  description : Option String

inductive ApiKeyLocation where
  | query
  | header
  | cookie

structure APIKeySecurityScheme where
  name : String
  in_ : ApiKeyLocation
  description : Option String

structure OAuth2SecurityScheme where
  flows : List (String × Json)
  description : Option String

structure OpenIdConnectSecurityScheme where
  openIdConnectUrl : String
  description : Option String

structure MutualTLSSecurityScheme where
  description : Option String

/-- `SecurityScheme`, discriminated on `type`. -/
inductive SecurityScheme where
  | http : HTTPAuthSecurityScheme → SecurityScheme
  | apiKey : APIKeySecurityScheme → SecurityScheme
  | oauth2 : OAuth2SecurityScheme → SecurityScheme
  | openIdConnect : OpenIdConnectSecurityScheme → SecurityScheme
  | mutualTLS : MutualTLSSecurityScheme → SecurityScheme

def decApiKeyLocation (j : Json) : Option ApiKeyLocation :=
  match j with
  | .str "query" => some .query
  | .str "header" => some .header
  | .str "cookie" => some .cookie
  | _ => none

def decodeSecurityScheme (j : Json) : Option SecurityScheme :=
  match j with
  | .obj kvs =>
    match getField kvs "type" with
    | some (.str "http") => do
      let scheme ← reqField decStr kvs "scheme"
      let bearerFormat ← optField decStr kvs "bearerFormat"
      let description ← optField decStr kvs "description"
      pure (.http { scheme, bearerFormat, description })
    | some (.str "apiKey") => do
      let name ← reqField decStr kvs "name"
      let in_ ← reqField decApiKeyLocation kvs "in_"
      let description ← optField decStr kvs "description"
      pure (.apiKey { name, in_, description })
    | some (.str "oauth2") => do
      let flows ← reqField decDict kvs "flows"
      let description ← optField decStr kvs "description"
      pure (.oauth2 { flows, description })
    | some (.str "openIdConnect") => do
      let openIdConnectUrl ← reqField decStr kvs "openIdConnectUrl"
      let description ← optField decStr kvs "description"
      pure (.openIdConnect { openIdConnectUrl, description })
    | some (.str "mutualTLS") => do
      let description ← optField decStr kvs "description"
      pure (.mutualTLS { description })
    | _ => none
  | _ => none

/-! ## Method parameter shapes (source lines 355–394, 525–644, 737–763). -/

structure PushNotificationConfig where
  id : String
  url : String
  token : Option String
  authentication : Option SecurityScheme

def decodePushNotificationConfig (j : Json) : Option PushNotificationConfig :=
  match j with
  | .obj kvs => do
    let id ← reqField decStr kvs "id"
    let url ← reqField decStr kvs "url"
    let token ← optField decStr kvs "token"
    let authentication ← optField decodeSecurityScheme kvs "authentication"
    pure { id, url, token, authentication }
  | _ => none

structure TaskPushNotificationConfig where
  id : String
  pushNotificationConfig : PushNotificationConfig

def decodeTaskPushNotificationConfig (j : Json) : Option TaskPushNotificationConfig :=
  match j with
  | .obj kvs => do
    let id ← reqField decStr kvs "id"
    let pushNotificationConfig ← reqField decodePushNotificationConfig kvs
      "pushNotificationConfig"
    pure { id, pushNotificationConfig }
  | _ => none

structure TaskIdParams where
  taskId : String
  metadata : Option (List (String × Json))

def decodeTaskIdParams (j : Json) : Option TaskIdParams :=
  match j with
  | .obj kvs => do
    let taskId ← reqField decStr kvs "taskId"
    let metadata ← optField decDict kvs "metadata"
    pure { taskId, metadata }
  | _ => none

/-- `TaskQueryParams` extends `TaskIdParams` with `history_length`. -/
structure TaskQueryParams where
  taskId : String
  metadata : Option (List (String × Json))
  historyLength : Option Int

def decodeTaskQueryParams (j : Json) : Option TaskQueryParams :=
  match j with
  | .obj kvs => do
    let taskId ← reqField decStr kvs "taskId"
    let metadata ← optField decDict kvs "metadata"
    let historyLength ← optField decNum kvs "historyLength"
    pure { taskId, metadata, historyLength }
  | _ => none

structure ListTasksParams where
  historyLength : Option Int
  metadata : Option (List (String × Json))

def decodeListTasksParams (j : Json) : Option ListTasksParams :=
  match j with
  | .obj kvs => do
    let historyLength ← optField decNum kvs "historyLength"
    let metadata ← optField decDict kvs "metadata"
    pure { historyLength, metadata }
  | _ => none

structure TaskFeedbackParams where
  taskId : String
  feedback : String
  rating : Option Int
  metadata : Option (List (String × Json))

def decodeTaskFeedbackParams (j : Json) : Option TaskFeedbackParams :=
  match j with
  | .obj kvs => do
    let taskId ← reqField decStr kvs "taskId"
    let feedback ← reqField decStr kvs "feedback"
    let rating ← optField decNum kvs "rating"
    let metadata ← optField decDict kvs "metadata"
    pure { taskId, feedback, rating, metadata }
  | _ => none

structure MessageSendConfiguration where
  acceptedOutputModes : List String
  blocking : Option Bool
  historyLength : Option Int
  pushNotificationConfig : Option PushNotificationConfig

def decodeMessageSendConfiguration (j : Json) : Option MessageSendConfiguration :=
  match j with
  | .obj kvs => do
    let acceptedOutputModes ← reqField (decList decStr) kvs "acceptedOutputModes"
    let blocking ← optField decBool kvs "blocking"
    let historyLength ← optField decNum kvs "historyLength"
    let pushNotificationConfig ← optField decodePushNotificationConfig kvs
      "pushNotificationConfig"
    pure { acceptedOutputModes, blocking, historyLength, pushNotificationConfig }
  | _ => none

structure MessageSendParams where
  configuration : MessageSendConfiguration
  message : Message
  metadata : Option (List (String × Json))

def decodeMessageSendParams (j : Json) : Option MessageSendParams :=
  match j with
  | .obj kvs => do
    let configuration ← reqField decodeMessageSendConfiguration kvs "configuration"
    let message ← reqField decodeMessage kvs "message"
    let metadata ← optField decDict kvs "metadata"
    pure { configuration, message, metadata }
  | _ => none

structure ListContextsParams where
  historyLength : Option Int
  metadata : Option (List (String × Json))

def decodeListContextsParams (j : Json) : Option ListContextsParams :=
  match j with
  | .obj kvs => do
    let historyLength ← optField decNum kvs "historyLength"
    let metadata ← optField decDict kvs "metadata"
    pure { historyLength, metadata }
  | _ => none

structure ContextIdParams where
  contextId : String
  metadata : Option (List (String × Json))

def decodeContextIdParams (j : Json) : Option ContextIdParams :=
  match j with
  | .obj kvs => do
    let contextId ← reqField decStr kvs "contextId"
    let metadata ← optField decDict kvs "metadata"
    pure { contextId, metadata }
  | _ => none

structure ListTaskPushNotificationConfigParams where
  id : String
  metadata : Option (List (String × Json))

def decodeListTaskPushNotificationConfigParams (j : Json) :
    Option ListTaskPushNotificationConfigParams :=
  match j with
  | .obj kvs => do
    let id ← reqField decStr kvs "id"
    let metadata ← optField decDict kvs "metadata"
    pure { id, metadata }
  | _ => none

structure DeleteTaskPushNotificationConfigParams where
  id : String
  pushNotificationConfigId : String
  metadata : Option (List (String × Json))

def decodeDeleteTaskPushNotificationConfigParams (j : Json) :
    Option DeleteTaskPushNotificationConfigParams :=
  match j with
  | .obj kvs => do
    let id ← reqField decStr kvs "id"
    let pushNotificationConfigId ← reqField decStr kvs "pushNotificationConfigId"
    let metadata ← optField decDict kvs "metadata"
    pure { id, pushNotificationConfigId, metadata }
  | _ => none

/-! ## The method registry (`PebblingRequest`, source lines 1364–1426). -/

/-- The decoded parameters of a `PebblingRequest`, one variant per registered
method, each bound to exactly one parameter shape. -/
inductive RequestParams where
  | sendMessage : MessageSendParams → RequestParams
  | streamMessage : MessageSendParams → RequestParams
  | getTask : TaskQueryParams → RequestParams
  | cancelTask : TaskIdParams → RequestParams
  | listTasks : ListTasksParams → RequestParams
  | taskFeedback : TaskFeedbackParams → RequestParams
  | listContexts : ListContextsParams → RequestParams
  | clearContexts : ContextIdParams → RequestParams
  | setTaskPushNotification : TaskPushNotificationConfig → RequestParams
  | getTaskPushNotification : TaskIdParams → RequestParams
  | resubscribeTask : TaskIdParams → RequestParams
  | listTaskPushNotificationConfig :
      ListTaskPushNotificationConfigParams → RequestParams
  | deleteTaskPushNotificationConfig :
      DeleteTaskPushNotificationConfigParams → RequestParams

/-- The 13 registered method names, in source order (lines 1409–1426). -/
def registeredMethods : List String :=
  ["message/send", "message/stream", "tasks/get", "tasks/cancel", "tasks/list",
   "tasks/feedback", "contexts/list", "contexts/clear",
   "tasks/pushNotification/set", "tasks/pushNotification/get",
   "tasks/resubscribe", "tasks/pushNotificationConfig/list",
   "tasks/pushNotificationConfig/delete"]

/-- The parameter decoder registered for each method name: each name is bound
to exactly one parameter shape. Unregistered names have no decoder. -/
def decodeParamsFor (m : String) (j : Json) : Option RequestParams :=
  if m = "message/send" then (decodeMessageSendParams j).map .sendMessage
  else if m = "message/stream" then (decodeMessageSendParams j).map .streamMessage
  else if m = "tasks/get" then (decodeTaskQueryParams j).map .getTask
  else if m = "tasks/cancel" then (decodeTaskIdParams j).map .cancelTask
  else if m = "tasks/list" then (decodeListTasksParams j).map .listTasks
  else if m = "tasks/feedback" then (decodeTaskFeedbackParams j).map .taskFeedback
  else if m = "contexts/list" then (decodeListContextsParams j).map .listContexts
  else if m = "contexts/clear" then (decodeContextIdParams j).map .clearContexts
  else if m = "tasks/pushNotification/set" then
    (decodeTaskPushNotificationConfig j).map .setTaskPushNotification
  else if m = "tasks/pushNotification/get" then
    (decodeTaskIdParams j).map .getTaskPushNotification
  else if m = "tasks/resubscribe" then
    (decodeTaskIdParams j).map .resubscribeTask
  else if m = "tasks/pushNotificationConfig/list" then
    (decodeListTaskPushNotificationConfigParams j).map .listTaskPushNotificationConfig
  else if m = "tasks/pushNotificationConfig/delete" then
    (decodeDeleteTaskPushNotificationConfigParams j).map .deleteTaskPushNotificationConfig
  else none

/-- A decoded `PebblingRequest`: envelope plus method-determined params. -/
structure PebblingRequest where
  id : String
  params : RequestParams

/-- `pebble_request_ta` (line 1444): the `method`-discriminated union of the
13 request types. The discriminant is read first; the selected member then
validates the envelope and the params. -/
def decodePebblingRequest (j : Json) : Option PebblingRequest :=
  match j with
  | .obj kvs =>
    match getField kvs "method" with
    | some (.str m) =>
      if m ∈ registeredMethods then do
        let _ ← reqField (decLit "2.0") kvs "jsonrpc"
        let id ← reqField decStr kvs "id"
        let params ← reqField (decodeParamsFor m) kvs "params"
        pure { id, params }
      else none
    | _ => none
  | _ => none

def invalidRequestErr : RpcError :=
  { code := -32600, message := invalidRequestMsg, data := none }

def methodNotFoundErr : RpcError :=
  { code := -32601, message := methodNotFoundMsg, data := none }

def invalidParamsErr : RpcError :=
  { code := -32602, message := invalidParamsMsg, data := none }

def taskNotFoundErr : RpcError :=
  { code := -32001, message := taskNotFoundMsg, data := none }

/-- Modelled from the spec: the dispatch layer of §4.4 is not part of src/
(the source declares only the request/response types and the
`pebble_request_ta` adapter). Per §4.4: `handle` looks up `request.method`;
an unregistered (or missing) method yields `MethodNotFoundError` (−32601);
a registered method whose `params` fail the registered decoder yields
`InvalidParamsError` (−32602); a malformed envelope yields
`InvalidRequestError` (−32600, §7). -/
def dispatchDecode (j : Json) : Except RpcError PebblingRequest :=
  match j with
  | .obj kvs =>
    match reqField (decLit "2.0") kvs "jsonrpc", reqField decStr kvs "id" with
    | some _, some id =>
      match getField kvs "method" with
      | some (.str m) =>
        if m ∈ registeredMethods then
          match (getField kvs "params").bind (decodeParamsFor m) with
          | some params => .ok { id, params }
          | none => .error invalidParamsErr
        else .error methodNotFoundErr
      | _ => .error methodNotFoundErr
    | _, _ => .error invalidRequestErr
  | _ => .error invalidRequestErr

/-- Modelled from the spec: the `tasks/get` handler runtime (task lookup) is
not part of src/; §4.4 and Scenario C describe it: on success the response
carries a `Task` result, on a missing task the registered
`TaskNotFoundError` (−32001). The response types themselves are from src
(lines 1370–1371). -/
def handleGetTask (store : String → Option Task) (reqId : String)
    (p : TaskQueryParams) : JSONRPCResponse Task RpcError :=
  match store p.taskId with
  | some t => { id := reqId, result := some t, error := none }
  | none => { id := reqId, result := none, error := some taskNotFoundErr }

/-! ## Concrete wire inputs used by the claim theorems. -/

def mkStatusInput (s : String) : Json :=
  .obj [("state", .str s), ("timestamp", .str "2025-10-10T10:00:00Z")]

def mkRpcRequest (m : String) (params : Json) : Json :=
  .obj [("jsonrpc", .str "2.0"),
    ("id", .str "11111111-1111-1111-1111-111111111111"),
    ("method", .str m), ("params", params)]

/-- The spec's method/param-binding scenario: `tasks/get` with params shaped
for `tasks/feedback`. -/
def c8WrongShapeRequest : Json :=
  mkRpcRequest "tasks/get" (.obj [("feedback", .str "x")])

/-- A minimal valid wire `Task`. -/
def tinyTaskJson : Json :=
  .obj [("id", .str "t"), ("contextId", .str "c"), ("kind", .str "task"),
    ("status", .obj [("state", .str "submitted"), ("timestamp", .str "z")])]

/-- The decoded value of `tinyTaskJson`. -/
def tinyTask : Task :=
  { id := "t", contextId := "c",
    status := { message := none, state := .submitted, timestamp := "z" },
    artifacts := none, history := none, metadata := none }

/-- A wire `TaskNotFoundError` with the canonical code and message. -/
def tinyErrJson : Json :=
  .obj [("code", .num (-32001)), ("message", .str taskNotFoundMsg)]

def respNeitherJson : Json :=
  .obj [("jsonrpc", .str "2.0"), ("id", .str "x")]

def respResultOnlyJson : Json :=
  .obj [("jsonrpc", .str "2.0"), ("id", .str "x"), ("result", tinyTaskJson)]

def respErrorOnlyJson : Json :=
  .obj [("jsonrpc", .str "2.0"), ("id", .str "x"), ("error", tinyErrJson)]

def respBothJson : Json :=
  .obj [("jsonrpc", .str "2.0"), ("id", .str "x"), ("result", tinyTaskJson),
    ("error", tinyErrJson)]

/-! ## Theorems. -/

@[simp] theorem some_or (a : α) (x : Option α) : (some a).or x = some a := rfl

@[simp] theorem none_or (x : Option α) : Option.or none x = x := rfl

@[simp] theorem or_none (o : Option α) : o.or none = o := by cases o <;> rfl

@[simp] theorem getField_nil (k : String) : getField [] k = none := rfl

@[simp] theorem getField_cons (k' : String) (v : Json) (rest : List (String × Json))
    (k : String) : getField ((k', v) :: rest) k = if k' = k then some v else getField rest k :=
  rfl

@[simp] theorem getField_addOpt (k : String) (o : Option Json)
    (rest : List (String × Json)) (k' : String) :
    getField (addOpt k o rest) k' =
      if k = k' then o.or (getField rest k') else getField rest k' := by
  cases o with
  | some v => simp [addOpt]
  | none => simp only [addOpt, none_or]; split <;> rfl

/- Round-trip lemmas for the primitive decoders. -/

@[simp] theorem decStr_str (s : String) : decStr (.str s) = some s := rfl

@[simp] theorem decNum_num (n : Int) : decNum (.num n) = some n := rfl

@[simp] theorem decBool_bool (b : Bool) : decBool (.bool b) = some b := rfl

@[simp] theorem decDict_obj (kvs : List (String × Json)) :
    decDict (.obj kvs) = some kvs := rfl

@[simp] theorem decAny_eq (j : Json) : decAny j = some j := rfl

@[simp] theorem decLit_self (s : String) : decLit s (.str s) = some () := by
  simp [decLit]

theorem decList_map (dec : Json → Option α) (enc : α → Json)
    (h : ∀ x, dec (enc x) = some x) (l : List α) :
    decList dec (.arr (l.map enc)) = some l := by
  have haux : ∀ l : List α, decListAux dec (l.map enc) = some l := by
    intro l
    induction l with
    | nil => rfl
    | cons x xs ih => simp [decListAux, h, ih]
  simp [decList, haux l]

theorem decOptWith_map (dec : Json → Option α) (enc : α → Json)
    (h : ∀ x, dec (enc x) = some x) (o : Option α) :
    decOptWith dec (o.map enc) = some o := by
  cases o with
  | none => rfl
  | some x => simp [decOptWith, h]

@[simp] theorem decOptWith_any (o : Option Json) : decOptWith decAny o = some o := by
  cases o <;> rfl

@[simp] theorem decOptWith_map_str (o : Option String) :
    decOptWith decStr (o.map Json.str) = some o :=
  decOptWith_map _ _ decStr_str o

@[simp] theorem decOptWith_map_num (o : Option Int) :
    decOptWith decNum (o.map Json.num) = some o :=
  decOptWith_map _ _ decNum_num o

@[simp] theorem decOptWith_map_bool (o : Option Bool) :
    decOptWith decBool (o.map Json.bool) = some o :=
  decOptWith_map _ _ decBool_bool o

@[simp] theorem decOptWith_map_dict (o : Option (List (String × Json))) :
    decOptWith decDict (o.map Json.obj) = some o :=
  decOptWith_map _ _ decDict_obj o

@[simp] theorem decOptWith_map_strList (o : Option (List String)) :
    decOptWith (decList decStr) (o.map encStrList) = some o :=
  decOptWith_map _ _ (fun l => decList_map _ _ decStr_str l) o

@[simp] theorem decOptWith_map_numList (o : Option (List Int)) :
    decOptWith (decList decNum) (o.map encNumList) = some o :=
  decOptWith_map _ _ (fun l => decList_map _ _ decNum_num l) o

@[simp] theorem decList_map_str (l : List String) :
    decList decStr (encStrList l) = some l :=
  decList_map _ _ decStr_str l

@[simp] theorem decList_map_num (l : List Int) :
    decList decNum (encNumList l) = some l :=
  decList_map _ _ decNum_num l

theorem rt_textPartFields (p : TextPart) :
    decodeTextPartFields (encodeTextPartFields p) = some p := by
  simp [decodeTextPartFields, encodeTextPartFields, reqField, optField]

theorem rt_fileContent (f : FileContent) :
    decodeFileContent (encodeFileContent f) = some f := by
  cases f with
  | withBytes fb =>
    simp [decodeFileContent, encodeFileContent, encodeFileWithBytes,
      decodeFileWithBytes, reqField, optField]
  | withUri fu =>
    simp [decodeFileContent, encodeFileContent, encodeFileWithUri,
      decodeFileWithUri, reqField, optField]

theorem kind_textPartFields (p : TextPart) :
    getField (encodeTextPartFields p) "kind" = some (.str "text") := by
  simp [encodeTextPartFields]

theorem kind_filePartFields (p : FilePart) :
    getField (encodeFilePartFields p) "kind" = some (.str "file") := by
  simp [encodeFilePartFields]

theorem kind_dataPartFields (p : DataPart) :
    getField (encodeDataPartFields p) "kind" = some (.str "data") := by
  simp [encodeDataPartFields]

theorem rt_filePartFields (p : FilePart) :
    decodeFilePartFields (encodeFilePartFields p) = some p := by
  simp [decodeFilePartFields, encodeFilePartFields, reqField, optField,
    rt_fileContent]

theorem rt_dataPartFields (p : DataPart) :
    decodeDataPartFields (encodeDataPartFields p) = some p := by
  simp [decodeDataPartFields, encodeDataPartFields, reqField, optField]

theorem rt_part (p : Part) : decodePart (encodePart p) = some p := by
  cases p with
  | text tp => simp [decodePart, encodePart, kind_textPartFields, rt_textPartFields]
  | file fp => simp [decodePart, encodePart, kind_filePartFields, rt_filePartFields]
  | data dp => simp [decodePart, encodePart, kind_dataPartFields, rt_dataPartFields]

@[simp] theorem decList_map_part (l : List Part) :
    decList decodePart (encPartList l) = some l :=
  decList_map _ _ rt_part l

@[simp] theorem decOptWith_map_partList (o : Option (List Part)) :
    decOptWith (decList decodePart) (o.map encPartList) = some o :=
  decOptWith_map _ _ decList_map_part o

@[simp] theorem rt_taskState (st : TaskState) : decTaskState (encTaskState st) = some st := by
  cases st <;> rfl

@[simp] theorem rt_taskStateJson (st : TaskState) :
    decTaskStateJson (.str (encTaskState st)) = some st := by
  cases st <;> rfl

theorem decTaskState_eq_none (s : String) (h : s ∉ taskStateStrings) :
    decTaskState s = none := by
  simp only [taskStateStrings, List.mem_cons, List.not_mem_nil, or_false,
    not_or] at h
  obtain ⟨h1, h2, h3, h4, h5, h6, h7, h8, h9, h10, h11, h12, h13, h14, h15,
    h16⟩ := h
  simp [decTaskState, h1, h2, h3, h4, h5, h6, h7, h8, h9, h10, h11, h12, h13,
    h14, h15, h16]

@[simp] theorem rt_msgRole (r : MsgRole) : decMsgRole (.str (encMsgRole r)) = some r := by
  cases r <;> rfl

@[simp] theorem rt_ctxStatus (s : CtxStatus) : decCtxStatus (.str (encCtxStatus s)) = some s := by
  cases s <;> rfl

@[simp] theorem decOptWith_map_ctxStatus (o : Option CtxStatus) :
    decOptWith decCtxStatus (o.map (fun s => Json.str (encCtxStatus s))) = some o :=
  decOptWith_map _ _ rt_ctxStatus o

theorem rt_artifact (a : Artifact) : decodeArtifact (encodeArtifact a) = some a := by
  simp [decodeArtifact, encodeArtifact, reqField, optField]

@[simp] theorem decList_map_artifact (l : List Artifact) :
    decList decodeArtifact (encArtifactList l) = some l :=
  decList_map _ _ rt_artifact l

@[simp] theorem decOptWith_map_artifactList (o : Option (List Artifact)) :
    decOptWith (decList decodeArtifact) (o.map encArtifactList) = some o :=
  decOptWith_map _ _ decList_map_artifact o

theorem rt_message (m : Message) : decodeMessage (encodeMessage m) = some m := by
  simp [decodeMessage, encodeMessage, reqField, optField]

@[simp] theorem decList_map_message (l : List Message) :
    decList decodeMessage (encMessageList l) = some l :=
  decList_map _ _ rt_message l

@[simp] theorem decOptWith_map_messageList (o : Option (List Message)) :
    decOptWith (decList decodeMessage) (o.map encMessageList) = some o :=
  decOptWith_map _ _ decList_map_message o

@[simp] theorem decOptWith_map_message (o : Option Message) :
    decOptWith decodeMessage (o.map encodeMessage) = some o :=
  decOptWith_map _ _ rt_message o

theorem rt_taskStatus (s : TaskStatus) : decodeTaskStatus (encodeTaskStatus s) = some s := by
  simp [decodeTaskStatus, encodeTaskStatus, reqField, optField]

theorem rt_task (t : Task) : decodeTask (encodeTask t) = some t := by
  simp [decodeTask, encodeTask, reqField, optField, rt_taskStatus]

theorem rt_context (c : Context) : decodeContext (encodeContext c) = some c := by
  simp [decodeContext, encodeContext, reqField, optField]

theorem rt_contactAddress (a : ContactAddress) :
    decodeContactAddress (encodeContactAddress a) = some a := by
  simp [decodeContactAddress, encodeContactAddress, reqField, optField]

@[simp] theorem decOptWith_map_contactAddress (o : Option ContactAddress) :
    decOptWith decodeContactAddress (o.map encodeContactAddress) = some o :=
  decOptWith_map _ _ rt_contactAddress o

theorem rt_paymentCurrencyAmount (a : PaymentCurrencyAmount) :
    decodePaymentCurrencyAmount (encodePaymentCurrencyAmount a) = some a := by
  simp [decodePaymentCurrencyAmount, encodePaymentCurrencyAmount, reqField]

theorem rt_paymentItem (i : PaymentItem) :
    decodePaymentItem (encodePaymentItem i) = some i := by
  simp [decodePaymentItem, encodePaymentItem, reqField, optField,
    rt_paymentCurrencyAmount]

@[simp] theorem decList_map_paymentItem (l : List PaymentItem) :
    decList decodePaymentItem (encPaymentItemList l) = some l :=
  decList_map _ _ rt_paymentItem l

@[simp] theorem decOptWith_map_paymentItem (o : Option PaymentItem) :
    decOptWith decodePaymentItem (o.map encodePaymentItem) = some o :=
  decOptWith_map _ _ rt_paymentItem o

@[simp] theorem decOptWith_map_paymentItemList (o : Option (List PaymentItem)) :
    decOptWith (decList decodePaymentItem) (o.map encPaymentItemList) = some o :=
  decOptWith_map _ _ decList_map_paymentItem o

theorem rt_paymentShippingOption (s : PaymentShippingOption) :
    decodePaymentShippingOption (encodePaymentShippingOption s) = some s := by
  simp [decodePaymentShippingOption, encodePaymentShippingOption, reqField,
    optField, rt_paymentCurrencyAmount]

@[simp] theorem decList_map_paymentShippingOption (l : List PaymentShippingOption) :
    decList decodePaymentShippingOption (encPaymentShippingOptionList l) = some l :=
  decList_map _ _ rt_paymentShippingOption l

@[simp] theorem decOptWith_map_paymentShippingOption (o : Option PaymentShippingOption) :
    decOptWith decodePaymentShippingOption (o.map encodePaymentShippingOption) = some o :=
  decOptWith_map _ _ rt_paymentShippingOption o

@[simp] theorem decOptWith_map_paymentShippingOptionList
    (o : Option (List PaymentShippingOption)) :
    decOptWith (decList decodePaymentShippingOption)
      (o.map encPaymentShippingOptionList) = some o :=
  decOptWith_map _ _ decList_map_paymentShippingOption o

theorem rt_paymentOptions (o : PaymentOptions) :
    decodePaymentOptions (encodePaymentOptions o) = some o := by
  simp [decodePaymentOptions, encodePaymentOptions, optField]

@[simp] theorem decOptWith_map_paymentOptions (o : Option PaymentOptions) :
    decOptWith decodePaymentOptions (o.map encodePaymentOptions) = some o :=
  decOptWith_map _ _ rt_paymentOptions o

theorem rt_paymentMethodData (d : PaymentMethodData) :
    decodePaymentMethodData (encodePaymentMethodData d) = some d := by
  simp [decodePaymentMethodData, encodePaymentMethodData, reqField, optField]

@[simp] theorem decList_map_paymentMethodData (l : List PaymentMethodData) :
    decList decodePaymentMethodData (encPaymentMethodDataList l) = some l :=
  decList_map _ _ rt_paymentMethodData l

theorem rt_paymentDetailsModifier (m : PaymentDetailsModifier) :
    decodePaymentDetailsModifier (encodePaymentDetailsModifier m) = some m := by
  simp [decodePaymentDetailsModifier, encodePaymentDetailsModifier, reqField,
    optField]

@[simp] theorem decList_map_paymentDetailsModifier (l : List PaymentDetailsModifier) :
    decList decodePaymentDetailsModifier (encPaymentDetailsModifierList l) = some l :=
  decList_map _ _ rt_paymentDetailsModifier l

@[simp] theorem decOptWith_map_paymentDetailsModifierList
    (o : Option (List PaymentDetailsModifier)) :
    decOptWith (decList decodePaymentDetailsModifier)
      (o.map encPaymentDetailsModifierList) = some o :=
  decOptWith_map _ _ decList_map_paymentDetailsModifier o

theorem rt_paymentDetailsInit (d : PaymentDetailsInit) :
    decodePaymentDetailsInit (encodePaymentDetailsInit d) = some d := by
  simp [decodePaymentDetailsInit, encodePaymentDetailsInit, reqField, optField,
    rt_paymentItem]

theorem rt_paymentRequest (r : PaymentRequest) :
    decodePaymentRequest (encodePaymentRequest r) = some r := by
  simp [decodePaymentRequest, encodePaymentRequest, reqField, optField,
    rt_paymentDetailsInit]

theorem rt_paymentResponse (r : PaymentResponse) :
    decodePaymentResponse (encodePaymentResponse r) = some r := by
  simp [decodePaymentResponse, encodePaymentResponse, reqField, optField]

theorem rt_intentMandate (m : IntentMandate) :
    decodeIntentMandate (encodeIntentMandate m) = some m := by
  simp [decodeIntentMandate, encodeIntentMandate, reqField, optField]

theorem rt_cartContents (c : CartContents) :
    decodeCartContents (encodeCartContents c) = some c := by
  simp [decodeCartContents, encodeCartContents, reqField, rt_paymentRequest]

theorem rt_cartMandate (m : CartMandate) :
    decodeCartMandate (encodeCartMandate m) = some m := by
  simp [decodeCartMandate, encodeCartMandate, reqField, optField,
    rt_cartContents]

theorem rt_paymentMandateContents (c : PaymentMandateContents) :
    decodePaymentMandateContents (encodePaymentMandateContents c) = some c := by
  simp [decodePaymentMandateContents, encodePaymentMandateContents, reqField,
    rt_paymentItem, rt_paymentResponse]

theorem rt_paymentMandate (m : PaymentMandate) :
    decodePaymentMandate (encodePaymentMandate m) = some m := by
  simp [decodePaymentMandate, encodePaymentMandate, reqField, optField,
    rt_paymentMandateContents]

theorem decodeFixedError_spec (c : Int) (msg : String) (j : Json) (e : RpcError)
    (h : decodeFixedError c msg j = some e) : e.code = c ∧ e.message = msg := by
  cases j <;> simp [decodeFixedError, reqField, optField,
    Option.bind_eq_some] at h
  obtain ⟨-, -, -, -, -, -, rfl⟩ := h
  exact ⟨rfl, rfl⟩

/-! ## Helper lemmas for the claim theorems. -/

theorem bind_none_of (x : Option α) (f : α → Option β)
    (hf : ∀ a, f a = none) : x.bind f = none := by
  cases x with
  | none => rfl
  | some a => exact hf a

theorem decOptWith_eq_some_some (dec : Json → Option α) (o : Option Json)
    (a : α) (h : decOptWith dec o = some (some a)) :
    ∃ v, o = some v ∧ dec v = some a := by
  cases o with
  | none => simp [decOptWith] at h
  | some v =>
    refine ⟨v, rfl, ?_⟩
    simpa [decOptWith] using h

theorem decodeJSONRPCResponse_error {ρ ε : Type} (decR : Json → Option ρ)
    (decE : Json → Option ε) (j : Json) (r : JSONRPCResponse ρ ε) (e : ε)
    (h : decodeJSONRPCResponse decR decE j = some r) (he : r.error = some e) :
    ∃ je, decE je = some e := by
  cases j <;> simp [decodeJSONRPCResponse, reqField, optField,
    Option.bind_eq_some] at h
  obtain ⟨-, idv, -, result, -, error, herr, hr⟩ := h
  subst hr
  replace he : error = some e := he
  rw [he] at herr
  exact (decOptWith_eq_some_some decE _ e herr).imp (fun v hv => hv.2)

/-! ## The claims. -/

/-- C1: the spec claims the `kind` discriminant alone determines which
fields are required and that no variant carries another variant's required
field. The code violates this: `DataPart` and `FilePart` subclass `TextPart`
and inherit its required `text` field, so a `data` or `file` part without
`text` is rejected and only decodes once `text` is supplied. -/
theorem C1_variant_requiredness_leak :
    decodePart (.obj [("kind", .str "data"), ("data", .obj [])]) = none
    ∧ decodePart (.obj [("kind", .str "data"), ("data", .obj []),
        ("text", .str "t")])
      = some (.data { metadata := none, text := "t", data := [], embeddings := none })
    ∧ decodePart (.obj [("kind", .str "file"),
        ("file", .obj [("bytes", .str "QQ==")])]) = none
    ∧ decodePart (.obj [("kind", .str "file"),
        ("file", .obj [("bytes", .str "QQ==")]), ("text", .str "t")])
      = some (.file
          { metadata := none
            text := "t"
            file := .withBytes { bytes := "QQ==", mimeType := none, name := none, embeddings := none }
            embeddings := none }) :=
  ⟨rfl, rfl, rfl, rfl⟩

/-- C2: round-trip — decoding the wire encoding of any valid `Part`,
`Artifact`, `Message`, `Task`, `Context` and mandate (`IntentMandate`,
`CartMandate`, `PaymentMandate`) yields the value back; every field name is
carried through the per-entity wire-name mapping in both directions. -/
theorem C2_roundtrip :
    (∀ p : Part, decodePart (encodePart p) = some p)
    ∧ (∀ a : Artifact, decodeArtifact (encodeArtifact a) = some a)
    ∧ (∀ m : Message, decodeMessage (encodeMessage m) = some m)
    ∧ (∀ t : Task, decodeTask (encodeTask t) = some t)
    ∧ (∀ c : Context, decodeContext (encodeContext c) = some c)
    ∧ (∀ m : IntentMandate,
        decodeIntentMandate (encodeIntentMandate m) = some m)
    ∧ (∀ m : CartMandate, decodeCartMandate (encodeCartMandate m) = some m)
    ∧ (∀ m : PaymentMandate,
        decodePaymentMandate (encodePaymentMandate m) = some m) :=
  ⟨rt_part, rt_artifact, rt_message, rt_task, rt_context, rt_intentMandate,
   rt_cartMandate, rt_paymentMandate⟩

/-- C3: the spec claims exactly one content-locator form per `FileContent`
and that a uri-form payload need not supply `bytes`. The code violates the
latter: `FileWithUri` subclasses `FileWithBytes` and inherits its required
`bytes` field, so a uri-only payload is rejected and the accepted uri form
carries `bytes` as well. -/
theorem C3_uri_form_requires_bytes :
    decodeFileContent (.obj [("uri", .str "https://example.com/f")]) = none
    ∧ decodeFileContent (.obj [("bytes", .str "QQ=="),
        ("uri", .str "https://example.com/f")])
      = some (.withUri { bytes := "QQ==", mimeType := none, name := none, embeddings := none, uri := "https://example.com/f" }) :=
  ⟨rfl, rfl⟩

/-- C4: the spec's Scenario B claims `{"kind":"file","file":{"bytes":"QQ=="}}`
decodes to a FilePart with no other field required. The code rejects this
input: `FilePart` inherits the required `text` field from `TextPart`. -/
theorem C4_scenario_b_rejected :
    decodePart (.obj [("kind", .str "file"),
      ("file", .obj [("bytes", .str "QQ==")])]) = none := rfl

/-- C5: `TaskState` is a closed 16-value enumeration: a TaskStatus whose
state is any unlisted string (such as "bogus") fails to decode rather than
being coerced, and each of the 16 listed values decodes. -/
theorem C5_taskstate_closed_enum :
    (∀ s : String, s ∉ taskStateStrings →
      decodeTaskStatus (mkStatusInput s) = none)
    ∧ (∀ s ∈ taskStateStrings,
        (decodeTaskStatus (mkStatusInput s)).isSome = true)
    ∧ taskStateStrings.length = 16 := by
  refine ⟨?_, ?_, rfl⟩
  · intro s h
    show (decTaskState s).bind _ = none
    rw [decTaskState_eq_none s h]
    rfl
  · intro s hs
    simp only [taskStateStrings, List.mem_cons, List.not_mem_nil,
      or_false] at hs
    rcases hs with rfl | rfl | rfl | rfl | rfl | rfl | rfl | rfl | rfl | rfl |
      rfl | rfl | rfl | rfl | rfl | rfl <;> rfl

theorem C5_taskstate_closed_enum_witness :
    ("bogus" ∉ taskStateStrings
      ∧ decodeTaskStatus (mkStatusInput "bogus") = none)
    ∧ ("submitted" ∈ taskStateStrings
      ∧ (decodeTaskStatus (mkStatusInput "submitted")).isSome = true) :=
  ⟨⟨by decide, C5_taskstate_closed_enum.1 "bogus" (by decide)⟩,
   ⟨by decide, C5_taskstate_closed_enum.2.1 "submitted" (by decide)⟩⟩

/-- C6 counterexample: the claim says every valid JSONRPCResponse has
exactly one of result/error, never neither; the declared schema accepts a
response with neither (both fields are `NotRequired`). -/
theorem C6_counterexample :
    decodeGetTaskResponse respNeitherJson
      = some { id := "x", result := none, error := none } := rfl

/-- C6 (amended): in the declared `JSONRPCResponse`, `result` and `error`
are independent optional fields; responses with neither, exactly one, or
both all validate — mutual exclusivity is not enforced by the schema. -/
theorem C6_result_error_independent :
    decodeGetTaskResponse respNeitherJson
      = some { id := "x", result := none, error := none }
    ∧ decodeGetTaskResponse respResultOnlyJson
      = some { id := "x", result := some tinyTask, error := none }
    ∧ decodeGetTaskResponse respErrorOnlyJson
      = some { id := "x", result := none, error := some taskNotFoundErr }
    ∧ decodeGetTaskResponse respBothJson
      = some { id := "x", result := some tinyTask, error := some taskNotFoundErr } :=
  ⟨rfl, rfl, rfl, rfl⟩

/-- C7 counterexample: the claim says the error table has exactly 16 pairs;
the source declares 13 (the five standard JSON-RPC codes plus the eight
domain codes −32001…−32008). -/
theorem C7_counterexample :
    errorTable.length = 13 ∧ errorTable.length ≠ 16 :=
  ⟨rfl, by decide⟩

/-- C7 (amended: the table has 13 pairs, not 16): the error taxonomy is a
fixed table of exactly 13 (code, canonical message) pairs — the five
standard JSON-RPC codes −32700/−32600/−32601/−32602/−32603 and the domain
codes −32001…−32008 — with pairwise-distinct codes; decoding accepts only
the canonical message bound to a code (a per-instance alteration of the
message is rejected), and `data` is the only free-form field. -/
theorem C7_error_table :
    errorTable.length = 13
    ∧ errorTable.map Prod.fst
      = [-32700, -32600, -32601, -32602, -32603,
         -32001, -32002, -32003, -32004, -32005, -32006, -32007, -32008]
    ∧ (errorTable.map Prod.fst).Nodup
    ∧ (∀ c msg, (c, msg) ∈ errorTable → ∀ j e,
        decodeFixedError c msg j = some e → e.code = c ∧ e.message = msg)
    ∧ (∀ c msg, (c, msg) ∈ errorTable → ∀ kvs m', m' ≠ msg →
        getField kvs "message" = some (.str m') →
        decodeFixedError c msg (.obj kvs) = none) := by
  refine ⟨rfl, rfl, by decide, ?_, ?_⟩
  · intro c msg _ j e h
    exact decodeFixedError_spec c msg j e h
  · intro c msg _ kvs m' hne hm
    show (reqField (decNumLit c) kvs "code").bind _ = none
    refine bind_none_of _ _ (fun u => ?_)
    show (reqField (decLit msg) kvs "message").bind _ = none
    rw [reqField, hm]
    show (if m' = msg then some () else none).bind _ = none
    rw [if_neg hne]
    rfl

theorem C7_error_table_witness :
    decodeFixedError (-32700) parseErrorMsg
        (.obj [("code", .num (-32700)), ("message", .str parseErrorMsg)])
      = some { code := -32700, message := parseErrorMsg, data := none }
    ∧ decodeFixedError (-32700) parseErrorMsg
        (.obj [("code", .num (-32700)), ("message", .str "altered")])
      = none :=
  ⟨rfl,
   C7_error_table.2.2.2.2 (-32700) parseErrorMsg (by simp [errorTable])
     [("code", Json.num (-32700)), ("message", Json.str "altered")] "altered"
     (by decide) rfl⟩

/-- C8: each registered method name is bound to exactly one parameter shape,
enforced at decode time: the `tasks/get` request carrying
`tasks/feedback`-shaped params fails to decode and is classified
InvalidParamsError (−32602); a request whose method is not one of the 13
registered names is classified MethodNotFoundError (−32601). The error
classification is the spec-modelled dispatch layer; the binding itself is
the source's registry. -/
theorem C8_method_binding :
    dispatchDecode c8WrongShapeRequest = .error invalidParamsErr
    ∧ invalidParamsErr.code = -32602
    ∧ decodePebblingRequest c8WrongShapeRequest = none
    ∧ (∀ m : String, m ∉ registeredMethods →
        dispatchDecode (mkRpcRequest m (.obj []))
          = .error methodNotFoundErr)
    ∧ methodNotFoundErr.code = -32601
    ∧ registeredMethods.length = 13 := by
  refine ⟨rfl, rfl, rfl, ?_, rfl, rfl⟩
  intro m h
  show (if m ∈ registeredMethods then _ else Except.error methodNotFoundErr)
    = Except.error methodNotFoundErr
  rw [if_neg h]

theorem C8_method_binding_witness :
    "bogus/method" ∉ registeredMethods
    ∧ dispatchDecode (mkRpcRequest "bogus/method" (.obj []))
      = .error methodNotFoundErr :=
  ⟨by decide, C8_method_binding.2.2.2.1 "bogus/method" (by decide)⟩

/-- C9: a well-formed `tasks/get` request dispatches to the `tasks/get`
binding; the (spec-modelled) handler returns the stored Task as `result` on
success and, on a missing task, the registered TaskNotFoundError; −32001 is
the only code a decoded GetTaskResponse error can carry. -/
theorem C9_tasks_get_binding :
    dispatchDecode (mkRpcRequest "tasks/get"
        (.obj [("taskId", .str "22222222-2222-2222-2222-222222222222")]))
      = .ok
          { id := "11111111-1111-1111-1111-111111111111"
            params := .getTask
              { taskId := "22222222-2222-2222-2222-222222222222"
                metadata := none
                historyLength := none } }
    ∧ (∀ store reqId p t, store p.taskId = some t →
        handleGetTask store reqId p
          = { id := reqId, result := some t, error := none })
    ∧ (∀ store reqId p, store p.taskId = none →
        handleGetTask store reqId p
          = { id := reqId, result := none, error := some taskNotFoundErr })
    ∧ taskNotFoundErr.code = -32001
    ∧ (∀ j r e, decodeGetTaskResponse j = some r → r.error = some e →
        e.code = -32001) := by
  refine ⟨rfl, ?_, ?_, rfl, ?_⟩
  · intro store reqId p t h
    simp [handleGetTask, h]
  · intro store reqId p h
    simp [handleGetTask, h]
  · intro j r e h he
    rw [decodeGetTaskResponse] at h
    obtain ⟨je, hje⟩ := decodeJSONRPCResponse_error _ _ j r e h he
    exact (decodeFixedError_spec _ _ je e hje).1

theorem C9_tasks_get_binding_witness :
    handleGetTask (fun _ => none) "rid"
        { taskId := "t", metadata := none, historyLength := none }
      = { id := "rid", result := none, error := some taskNotFoundErr }
    ∧ taskNotFoundErr.code = -32001 :=
  ⟨C9_tasks_get_binding.2.2.1 (fun _ => none) "rid"
     { taskId := "t", metadata := none, historyLength := none } rfl,
   C9_tasks_get_binding.2.2.2.1⟩

/-- C10: Context decoding requires a `role` string field and a `kind` field
equal to the literal "context": any object missing `role`, or missing
`kind`, is rejected whatever else it carries; with both present (plus
contextId, createdAt, updatedAt) decoding succeeds for an arbitrary role
string. -/
theorem C10_context_role_kind_required :
    (∀ kvs, getField kvs "role" = none → decodeContext (.obj kvs) = none)
    ∧ (∀ kvs, getField kvs "kind" = none → decodeContext (.obj kvs) = none)
    ∧ (∀ cid role ts : String,
        decodeContext (.obj [("contextId", .str cid),
            ("kind", .str "context"), ("role", .str role),
            ("createdAt", .str ts), ("updatedAt", .str ts)])
          = some
              { contextId := cid
                tasks := none
                name := none
                description := none
                role := role
                createdAt := ts
                updatedAt := ts
                status := none
                tags := none
                metadata := none
                parentContextId := none
                referenceContextIds := none
                extensions := none }) := by
  refine ⟨?_, ?_, ?_⟩
  · intro kvs h
    show (reqField decStr kvs "contextId").bind _ = none
    refine bind_none_of _ _ (fun cid => ?_)
    show (reqField (decLit "context") kvs "kind").bind _ = none
    refine bind_none_of _ _ (fun u => ?_)
    show (optField (decList decStr) kvs "tasks").bind _ = none
    refine bind_none_of _ _ (fun tasks => ?_)
    show (optField decStr kvs "name").bind _ = none
    refine bind_none_of _ _ (fun name => ?_)
    show (optField decStr kvs "description").bind _ = none
    refine bind_none_of _ _ (fun description => ?_)
    show (reqField decStr kvs "role").bind _ = none
    rw [reqField, h]
    rfl
  · intro kvs h
    show (reqField decStr kvs "contextId").bind _ = none
    refine bind_none_of _ _ (fun cid => ?_)
    show (reqField (decLit "context") kvs "kind").bind _ = none
    rw [reqField, h]
    rfl
  · intro cid role ts
    rfl

theorem C10_context_role_kind_required_witness :
    (getField [("contextId", Json.str "c")] "role" = none
      ∧ decodeContext (.obj [("contextId", Json.str "c")]) = none)
    ∧ (getField [("role", Json.str "r")] "kind" = none
      ∧ decodeContext (.obj [("role", Json.str "r")]) = none) :=
  ⟨⟨rfl, C10_context_role_kind_required.1 _ rfl⟩,
   ⟨rfl, C10_context_role_kind_required.2.1 _ rfl⟩⟩

end AP2

